import Mathlib

/-!
Verification development for the claude-artifacts session/terminal core:
the PTY process session manager (`src/services/ptyManager.ts`), the
terminal correlator (`claudeService.ts`), and the transcript change
detector (`sessionMonitor.ts`), shallowly embedded as pure Lean
functions.  Host collaborators (node-pty, vscode, fs, crypto, JSON.parse)
are modelled as explicit parameters or small value types; machine
integers of the source are JavaScript numbers used as array lengths and
byte sizes, embedded as `Nat`.
-/

deriving instance DecidableEq for Except

namespace ClaudeArtifacts

/-! ## JavaScript string primitives, modelled over the character list -/

/-- JavaScript `String.prototype.substring(0, n)`. -/
def jsSubstring (s : String) (n : Nat) : String := String.mk (s.data.take n)

/-- JavaScript `String.prototype.toLowerCase` (ASCII part). -/
def lowerStr (s : String) : String := String.mk (s.data.map Char.toLower)

/-- JavaScript `String.prototype.includes`: substring containment. -/
def strContains (s pat : String) : Bool :=
  (List.range (s.data.length + 1)).any (fun i => pat.data.isPrefixOf (s.data.drop i))

/-- JavaScript `String.prototype.trim`. -/
def jsTrim (s : String) : String :=
  String.mk (((s.data.dropWhile Char.isWhitespace).reverse.dropWhile Char.isWhitespace).reverse)

/-- Split a character list at every occurrence of `sep`. -/
def splitCharsOn (sep : Char) : List Char → List Char → List (List Char)
  | [], acc => [acc.reverse]
  | c :: rest, acc =>
    if c == sep then acc.reverse :: splitCharsOn sep rest []
    else splitCharsOn sep rest (c :: acc)

/-- JavaScript `String.prototype.split(sep)` for a one-character separator. -/
def jsSplit (s : String) (sep : Char) : List String :=
  (splitCharsOn sep s.data []).map String.mk

/-! ## PTY Manager (ptyManager.ts) -/

def MAX_BUFFER_SIZE : Nat := 10000

def MAX_LINE_LENGTH : Nat := 10000

/-- The fixed marker appended to a truncated output chunk. -/
def TRUNCATION_MARKER : String := "\n[... line truncated]\n"

structure PTYSession where
  sessionId : String
  pid : Nat
  cwd : String
  createdAt : Nat
  outputBuffer : List String
  listeners : List Nat
deriving DecidableEq, Repr

/-- The manager's registry plus a count of pty processes ever spawned,
so that "no process is created" on a failed `spawn` is observable. -/
structure PTYState where
  sessions : List (String × PTYSession)
  spawnedProcesses : Nat
deriving DecidableEq, Repr

inductive PtyError where
  | validationError
  | duplicateSession (sessionId : String)
  | unknownSession (sessionId : String)
deriving DecidableEq, Repr

/-- `isValidSessionId`: charset `[a-zA-Z0-9_-]`, length 1..128. -/
def isValidSessionId (id : String) : Bool :=
  (id.length > 0 : Bool) && (id.length ≤ 128 : Bool) &&
    id.data.all (fun c => c.isAlphanum || c == '_' || c == '-')

/-- `PTYManager.spawn`: validation, duplicate check, then process creation
and registration.  `now` and `pid` stand for `Date.now()` and the pid the
host hands back. -/
def spawn (st : PTYState) (sessionId : String) (cwd : String) (_args : List String)
    (now pid : Nat) : PTYState × Except PtyError PTYSession :=
  if !isValidSessionId sessionId then
    (st, Except.error PtyError.validationError)
  else if (st.sessions.lookup sessionId).isSome then
    (st, Except.error (PtyError.duplicateSession sessionId))
  else
    let session : PTYSession :=
      { sessionId := sessionId, pid := pid, cwd := cwd, createdAt := now,
        outputBuffer := [], listeners := [] }
    ({ sessions := (sessionId, session) :: st.sessions,
       spawnedProcesses := st.spawnedProcesses + 1 },
     Except.ok session)

/-- The truncation step of the `onData` handler. -/
def processChunk (data : String) : String :=
  if data.length > MAX_LINE_LENGTH then
    jsSubstring data MAX_LINE_LENGTH ++ TRUNCATION_MARKER
  else data

/-- The ring-buffer step of the `onData` handler: push the processed
chunk, then `shift()` (drop the oldest entry) once the max entry count is
exceeded. -/
def pushChunk (buffer : List String) (data : String) : List String :=
  let b := buffer ++ [processChunk data]
  if b.length > MAX_BUFFER_SIZE then b.drop 1 else b

/-- A burst of chunks delivered one `onData` callback at a time. -/
def pushAll (buffer : List String) (chunks : List String) : List String :=
  chunks.foldl pushChunk buffer

/-- The whole `onData` handler on one session: returns the updated
session and the chunk forwarded to every listener. -/
def onData (s : PTYSession) (data : String) : PTYSession × String :=
  ({ s with outputBuffer := pushChunk s.outputBuffer data }, processChunk data)

/-- `PTYManager.write`: forwards `data` to the live process (its pid),
`UnknownSessionError` otherwise. -/
def write (st : PTYState) (sessionId : String) (data : String) :
    Except PtyError (Nat × String) :=
  match st.sessions.lookup sessionId with
  | some session => Except.ok (session.pid, data)
  | none => Except.error (PtyError.unknownSession sessionId)

/-- `PTYManager.resize`. -/
def resize (st : PTYState) (sessionId : String) (cols rows : Nat) :
    Except PtyError (Nat × Nat × Nat) :=
  match st.sessions.lookup sessionId with
  | some session => Except.ok (session.pid, cols, rows)
  | none => Except.error (PtyError.unknownSession sessionId)

/-- `PTYManager.addListener` (subscribe): set-insert the listener. -/
def addListener (st : PTYState) (sessionId : String) (listener : Nat) :
    Except PtyError PTYState :=
  match st.sessions.lookup sessionId with
  | some session =>
    let newListeners :=
      if session.listeners.contains listener then session.listeners
      else session.listeners ++ [listener]
    let updated := { session with listeners := newListeners }
    let newSessions :=
      st.sessions.map (fun p => if p.fst == sessionId then (p.fst, updated) else p)
    Except.ok { st with sessions := newSessions }
  | none => Except.error (PtyError.unknownSession sessionId)

/-- `PTYManager.getOutputBuffer`: a snapshot copy for a live session, the
empty list for an absent one (no error). -/
def getOutputBuffer (st : PTYState) (sessionId : String) : List String :=
  match st.sessions.lookup sessionId with
  | some session => session.outputBuffer
  | none => []

/-! ## Terminal correlator (claudeService.ts, session-aware version) -/

/-- A collaborator-supplied terminal resource: identity plus
human-readable label. -/
structure Terminal where
  id : Nat
  name : String
deriving DecidableEq, Repr

/-- The vscode window state visible to the correlator: the open
terminals, the user's focused terminal, and the module-level
session-to-terminal map. -/
structure World where
  terminals : List Terminal
  active : Option Terminal
  sessionMap : List (String × Nat)
deriving DecidableEq, Repr

/-- `registerSessionTerminal`: `Map.set` on the session map. -/
def registerSessionTerminal (w : World) (sessionId : String) (t : Terminal) : World :=
  { w with sessionMap :=
      (sessionId, t.id) :: w.sessionMap.filter (fun p => p.fst != sessionId) }

/-- `getSessionTerminal`: primary lookup, dropping a stale entry whose
terminal has closed. -/
def getSessionTerminal (w : World) (sessionId : String) : Option Terminal × World :=
  match w.sessionMap.lookup sessionId with
  | none => (none, w)
  | some tid =>
    match w.terminals.find? (fun t => t.id == tid) with
    | some t => (some t, w)
    | none =>
      (none, { w with sessionMap := w.sessionMap.filter (fun p => p.fst != sessionId) })

/-- The claude-specific tail of `_findClaudeTerminal`: any terminal
labelled claude, else the focused terminal when labelled node/claude. -/
def claudeFallback (w : World) : Option Terminal :=
  match w.terminals.find? (fun t => strContains (lowerStr t.name) "claude") with
  | some t => some t
  | none =>
    match w.active with
    | some t =>
      if lowerStr t.name == "node" || strContains (lowerStr t.name) "claude" then some t
      else none
    | none => none

/-- `_findClaudeTerminal`: registered binding, then label-contains-id
match (auto-registering it), then the claude fallback. -/
def findClaudeTerminal (w : World) (targetSessionId : Option String) :
    Option Terminal × World :=
  match targetSessionId with
  | some sid =>
    let r := getSessionTerminal w sid
    let w1 := r.2
    match r.1 with
    | some t => (some t, w1)
    | none =>
      match w1.terminals.find? (fun t => strContains (lowerStr t.name) (lowerStr sid)) with
      | some t => (some t, registerSessionTerminal w1 sid t)
      | none => (claudeFallback w1, w1)
  | none => (claudeFallback w, w)

/-- The message of the error thrown by `sendRawSequence` when no terminal
qualifies. -/
def noTerminalMessage (targetSessionId : Option String) : String :=
  let sessionInfo := match targetSessionId with
    | some sid => "\"" ++ sid ++ "\""
    | none => "this session"
  "No terminal found for " ++ sessionInfo ++ ". " ++
    "Start the session via \"Resume Session\" button in the Sessions panel, " ++
    "so the extension can track which terminal belongs to which plan."

/-- `sendRawSequence`: resolve via `_findClaudeTerminal`, else fall back
to the focused terminal (registering it for the session), else throw.  A
successful send is `(world after, terminal written to, payload)`. -/
def sendRawSequence (w : World) (targetSessionId : Option String) (sequence : String) :
    Except String (World × Terminal × String) :=
  let r := findClaudeTerminal w targetSessionId
  let w1 := r.2
  match r.1 with
  | some t => Except.ok (w1, t, sequence)
  | none =>
    match w1.active with
    | some a =>
      let w2 := match targetSessionId with
        | some sid => registerSessionTerminal w1 sid a
        | none => w1
      Except.ok (w2, a, sequence)
    | none => Except.error (noTerminalMessage targetSessionId)

/-- The terminal a send resolves to, when it resolves. -/
def sentTerminal (r : Except String (World × Terminal × String)) : Option Terminal :=
  match r with
  | Except.ok (_, t, _) => some t
  | Except.error _ => none

/-- The diagnostic message of a failed send. -/
def sendErrorMessage (r : Except String (World × Terminal × String)) : Option String :=
  match r with
  | Except.ok _ => none
  | Except.error m => some m

/-- Following the spec's words (the C1 invariant): a write target must be
explicitly registered for the sessionId, or labelled with the sessionId
as a case-insensitive substring, or be the focused terminal whose label
is on the allow-list of expected program names (node / claude). -/
def specAllowedWriteTarget (w : World) (sessionId : String) (t : Terminal) : Bool :=
  (match w.sessionMap.lookup sessionId with
   | some tid => tid == t.id
   | none => false) ||
  strContains (lowerStr t.name) (lowerStr sessionId) ||
  (w.active == some t &&
    (lowerStr t.name == "node" || strContains (lowerStr t.name) "claude"))

/-! ## Transcript change detector (sessionMonitor.ts) -/

/-- `FileState`: size, full-content hash and mtime saved per session. -/
structure FileState where
  size : Nat
  hash : String
  mtime : Nat
deriving DecidableEq, Repr

/-- A parsed newline-delimited JSON value, as handed back by the host
`JSON.parse`. -/
inductive Json where
  | null
  | bool (b : Bool)
  | num (n : Int)
  | str (s : String)
  | arr (elems : List Json)
  | obj (fields : List (String × Json))

/-- Property access on a parsed record (undefined when absent or when
the record is not an object). -/
def fieldsOf : Json → List (String × Json)
  | Json.obj fields => fields
  | _ => []

def jsLookup (fields : List (String × Json)) (key : String) : Option Json :=
  fields.lookup key

/-- JavaScript truthiness of a JSON value. -/
def jsTruthy : Json → Bool
  | Json.null => false
  | Json.bool b => b
  | Json.num n => !(n == 0)
  | Json.str s => !(s == "")
  | Json.arr _ => true
  | Json.obj _ => true

/-- JavaScript strict equality of a possibly-undefined value with a
string literal (`x === 'Edit'`). -/
def jsStrEq (v : Option Json) (lit : String) : Bool :=
  match v with
  | some (Json.str s) => s == lit
  | _ => false

/-- node's `path.basename` on a posix path. -/
def posixBasename (p : String) : String :=
  match ((jsSplit p '/').filter (fun s => !(s == ""))).getLast? with
  | some s => s
  | none => ""

/-- `params.file_path ? path.basename(params.file_path) : 'unknown'`.
A truthy non-string path makes the host `path.basename` throw, aborting
the line with no event; the claims only exercise string or absent. -/
def fileNameOf (params : List (String × Json)) : String :=
  match jsLookup params "file_path" with
  | some (Json.str s) => if s == "" then "unknown" else posixBasename s
  | _ => "unknown"

/-- `entry.input?.command || ''` (string case; the host throws on
`includes` for a truthy non-string command, aborting the line). -/
def commandOf (entry : Json) : String :=
  match jsLookup (fieldsOf entry) "input" with
  | some (Json.obj fs) =>
    match jsLookup fs "command" with
    | some (Json.str s) => s
    | _ => ""
  | _ => ""

def testKeywords : List String :=
  ["test", "npm test", "jest", "mocha", "pytest", "go test", "cargo test", "mvn test"]

/-- A classified transcript event, i.e. one screenshot capture with its
kind and extracted metadata. -/
inductive TranscriptEvent where
  | fileModified (fileName : String)
  | planApproved
  | testRun (testResults : String)
  | errorEvent (errorMessage : String)
  | manual
deriving DecidableEq, Repr

/-- `analyzeTranscriptEntry`: file-modifying tools, plan approval, test
keywords in a Bash command, then error results, in source order. -/
def analyzeTranscriptEntry (entry : Json) : List TranscriptEvent :=
  let fields := fieldsOf entry
  let fileEvents :=
    if jsStrEq (jsLookup fields "type") "tool_use" then
      let toolName := jsLookup fields "name"
      let params := match jsLookup fields "input" with
        | some (Json.obj fs) => fs
        | _ => []
      (if jsStrEq toolName "Edit" || jsStrEq toolName "Write" then
        [TranscriptEvent.fileModified (fileNameOf params)]
      else []) ++
      (if jsStrEq toolName "ExitPlanMode" then [TranscriptEvent.planApproved] else [])
    else []
  let testEvents :=
    if jsStrEq (jsLookup fields "type") "tool_use" && jsStrEq (jsLookup fields "name") "Bash" then
      if testKeywords.any (fun keyword => strContains (commandOf entry) keyword) then
        [TranscriptEvent.testRun "Test execution detected"]
      else []
    else []
  let errorEvents :=
    if jsStrEq (jsLookup fields "type") "tool_result" then
      let isError := match jsLookup fields "is_error" with
        | some v => jsTruthy v
        | none => false
      let contentV : Json := match jsLookup fields "content" with
        | some v => if jsTruthy v then v else Json.str ""
        | none => Json.str ""
      if isError then
        [TranscriptEvent.errorEvent (match contentV with
          | Json.str s => jsSubstring s 200
          | _ => "Error detected")]
      else
        match contentV with
        | Json.str s =>
          if strContains (lowerStr s) "error" then
            [TranscriptEvent.errorEvent (jsSubstring s 200)]
          else []
        | _ => []
    else []
  fileEvents ++ testEvents ++ errorEvents

/-- `content.trim().split('\n').filter(l => l.trim())`. -/
def linesOf (content : String) : List String :=
  (jsSplit (jsTrim content) '\n').filter (fun l => !(jsTrim l == ""))

/-- The observable outcome of one `processTranscriptUpdate` call for one
session: the saved state afterwards, the slice of lines handed to the
classify loop, and the events emitted. -/
structure MonitorResult where
  newState : Option FileState
  newLines : List String
  events : List TranscriptEvent
deriving DecidableEq, Repr

/-- `processTranscriptUpdate`, with the host file read abstracted into
`content`/`size`/`mtime`, the crypto hash into `hashFn`, and `JSON.parse`
into `parseLine` (`none` = parse failure, which skips the line). -/
def processTranscriptUpdate (hashFn : String → String) (parseLine : String → Option Json)
    (lastState : Option FileState) (content : String) (size mtime : Nat) : MonitorResult :=
  let hash := hashFn content
  let currentState : FileState := { size := size, hash := hash, mtime := mtime }
  match lastState with
  | some last =>
    if currentState.size < last.size then
      { newState := none, newLines := [], events := [] }
    else if currentState.hash == last.hash then
      { newState := some last, newLines := [], events := [] }
    else
      let lines := linesOf content
      let lastSize := last.size / 100
      let startIndex := min lastSize (lines.length - 1)
      let newLines := lines.drop startIndex
      { newState := some currentState, newLines := newLines,
        events := ((newLines.filterMap parseLine).map analyzeTranscriptEntry).flatten }
  | none =>
    let lines := linesOf content
    let newLines := lines.drop (min 0 (lines.length - 1))
    { newState := some currentState, newLines := newLines,
      events := ((newLines.filterMap parseLine).map analyzeTranscriptEntry).flatten }

/-! ## Concrete inputs used by witnesses and counterexamples -/

def demoSession : PTYSession :=
  { sessionId := "abc", pid := 7, cwd := "/tmp", createdAt := 0,
    outputBuffer := [], listeners := [] }

def demoState : PTYState :=
  { sessions := [("abc", demoSession)], spawnedProcesses := 1 }

def emptyState : PTYState := { sessions := [], spawnedProcesses := 0 }

def longChunk : String := String.mk (List.replicate (MAX_LINE_LENGTH + 1) 'a')

/-- A world with a single focused plain shell and no registrations. -/
def c1World : World :=
  { terminals := [{ id := 1, name := "bash" }],
    active := some { id := 1, name := "bash" },
    sessionMap := [] }

/-- A world with one open plain shell, nothing focused, no registrations. -/
def c8World : World :=
  { terminals := [{ id := 1, name := "bash" }],
    active := none,
    sessionMap := [] }

def lineEditText : String :=
  "\x7b\"type\":\"tool_use\",\"name\":\"Edit\",\"input\":\x7b\"file_path\":\"/a/b.ts\"\x7d\x7d"

def lineBashText : String :=
  "\x7b\"type\":\"tool_use\",\"name\":\"Bash\",\"input\":\x7b\"command\":\"npm test\"\x7d\x7d"

/-- `JSON.parse` of `lineEditText`. -/
def entryEdit : Json :=
  Json.obj [("type", Json.str "tool_use"), ("name", Json.str "Edit"),
            ("input", Json.obj [("file_path", Json.str "/a/b.ts")])]

/-- `JSON.parse` of `lineBashText`. -/
def entryBash : Json :=
  Json.obj [("type", Json.str "tool_use"), ("name", Json.str "Bash"),
            ("input", Json.obj [("command", Json.str "npm test")])]

/-- The host JSON parser restricted to the two scenario lines. -/
def demoParse (line : String) : Option Json :=
  if line == lineEditText then some entryEdit
  else if line == lineBashText then some entryBash
  else none

def demoContent : String := lineEditText ++ "\n" ++ lineBashText

/-! ## Helper lemmas -/

lemma processChunk_short (c : String) (h : c.length ≤ MAX_LINE_LENGTH) :
    processChunk c = c := by
  simp only [processChunk]
  rw [if_neg (by omega)]

lemma pushAll_formula (chunks : List String) : ∀ buffer : List String,
    buffer.length ≤ MAX_BUFFER_SIZE →
    pushAll buffer chunks =
      (buffer ++ chunks.map processChunk).drop
        (buffer.length + chunks.length - MAX_BUFFER_SIZE) := by
  induction chunks with
  | nil =>
    intro buffer h
    show buffer = _
    simp only [List.map_nil, List.append_nil, List.length_nil, Nat.add_zero]
    rw [Nat.sub_eq_zero_of_le h, List.drop_zero]
  | cons c cs ih =>
    intro buffer h
    have hstep : pushAll buffer (c :: cs) = pushAll (pushChunk buffer c) cs := rfl
    rw [hstep]
    by_cases hb : buffer.length + 1 > MAX_BUFFER_SIZE
    · have hcond : (buffer ++ [processChunk c]).length > MAX_BUFFER_SIZE := by
        simp only [List.length_append, List.length_cons, List.length_nil]
        omega
      have hpush : pushChunk buffer c = (buffer ++ [processChunk c]).drop 1 := by
        simp only [pushChunk]
        rw [if_pos hcond]
      have hlen2 : ((buffer ++ [processChunk c]).drop 1).length ≤ MAX_BUFFER_SIZE := by
        simp only [List.length_drop, List.length_append, List.length_cons, List.length_nil]
        omega
      rw [hpush, ih _ hlen2]
      rw [show (buffer ++ [processChunk c]).drop 1 ++ cs.map processChunk =
          ((buffer ++ [processChunk c]) ++ cs.map processChunk).drop 1 from
        (List.drop_append_of_le_length (by simp)).symm]
      rw [List.drop_drop]
      rw [show (buffer ++ [processChunk c]) ++ cs.map processChunk =
          buffer ++ (c :: cs).map processChunk from by simp]
      rw [show 1 + (((buffer ++ [processChunk c]).drop 1).length + cs.length -
            MAX_BUFFER_SIZE) = buffer.length + (c :: cs).length - MAX_BUFFER_SIZE from by
        simp only [List.length_drop, List.length_append, List.length_cons, List.length_nil]
        omega]
    · have hcond : ¬ (buffer ++ [processChunk c]).length > MAX_BUFFER_SIZE := by
        simp only [List.length_append, List.length_cons, List.length_nil]
        omega
      have hpush : pushChunk buffer c = buffer ++ [processChunk c] := by
        simp only [pushChunk]
        rw [if_neg hcond]
      have hlen2 : (buffer ++ [processChunk c]).length ≤ MAX_BUFFER_SIZE := by
        simp only [List.length_append, List.length_cons, List.length_nil]
        omega
      rw [hpush, ih _ hlen2]
      rw [show (buffer ++ [processChunk c]) ++ cs.map processChunk =
          buffer ++ (c :: cs).map processChunk from by simp]
      rw [show (buffer ++ [processChunk c]).length + cs.length - MAX_BUFFER_SIZE =
          buffer.length + (c :: cs).length - MAX_BUFFER_SIZE from by
        simp only [List.length_append, List.length_cons, List.length_nil]
        omega]

lemma getSessionTerminal_snd (w : World) (sid : String) :
    ((getSessionTerminal w sid).2).terminals = w.terminals ∧
    ((getSessionTerminal w sid).2).active = w.active := by
  unfold getSessionTerminal
  split
  · exact ⟨rfl, rfl⟩
  · split
    · exact ⟨rfl, rfl⟩
    · exact ⟨rfl, rfl⟩

lemma getSessionTerminal_some (w : World) (sid : String) (t : Terminal)
    (h : (getSessionTerminal w sid).1 = some t) :
    w.sessionMap.lookup sid = some t.id := by
  unfold getSessionTerminal at h
  split at h
  · simp at h
  · rename_i tid hl
    split at h
    · rename_i t2 hf
      simp only at h
      cases h
      have hp := List.find?_some hf
      have : t.id = tid := by simpa using hp
      rw [hl, this]
    · simp at h

lemma claudeFallback_sound (w : World) (t : Terminal) (h : claudeFallback w = some t) :
    strContains (lowerStr t.name) "claude" = true ∨ w.active = some t := by
  unfold claudeFallback at h
  split at h
  · rename_i t2 hf
    cases h
    have hp := List.find?_some hf
    exact Or.inl (by simpa using hp)
  · split at h
    · rename_i a ha
      split at h
      · cases h
        exact Or.inr ha
      · simp at h
    · simp at h

lemma findClaudeTerminal_active (w : World) (target : Option String) :
    ((findClaudeTerminal w target).2).active = w.active := by
  unfold findClaudeTerminal
  cases target with
  | none => rfl
  | some sid =>
    simp only
    split
    · exact (getSessionTerminal_snd w sid).2
    · split
      · exact (getSessionTerminal_snd w sid).2
      · exact (getSessionTerminal_snd w sid).2

lemma findClaudeTerminal_sound (w : World) (sid : String) (t : Terminal)
    (h : (findClaudeTerminal w (some sid)).1 = some t) :
    w.sessionMap.lookup sid = some t.id ∨
    strContains (lowerStr t.name) (lowerStr sid) = true ∨
    strContains (lowerStr t.name) "claude" = true ∨
    w.active = some t := by
  unfold findClaudeTerminal at h
  simp only at h
  split at h
  · rename_i t2 hg
    simp only at h
    cases h
    exact Or.inl (getSessionTerminal_some w sid t hg)
  · rename_i hg
    split at h
    · rename_i t2 hf
      simp only at h
      cases h
      have hp := List.find?_some hf
      exact Or.inr (Or.inl hp)
    · rename_i hf
      simp only at h
      rcases claudeFallback_sound _ t h with hc | ha
      · exact Or.inr (Or.inr (Or.inl hc))
      · rw [(getSessionTerminal_snd w sid).2] at ha
        exact Or.inr (Or.inr (Or.inr ha))

/-! ## Claim theorems -/

/-- C2: a sessionId failing the identifier-safety check makes `spawn`
fail with `ValidationError` before any process is created and with no
state mutation; a valid but already-live sessionId makes `spawn` fail
with `DuplicateSessionError`, again with no state mutation. -/
theorem c2_spawn_failfast (st : PTYState) (sessionId cwd : String) (args : List String)
    (now pid : Nat) :
    (isValidSessionId sessionId = false →
      spawn st sessionId cwd args now pid = (st, Except.error PtyError.validationError)) ∧
    (isValidSessionId sessionId = true → (st.sessions.lookup sessionId).isSome = true →
      spawn st sessionId cwd args now pid =
        (st, Except.error (PtyError.duplicateSession sessionId))) := by
  constructor
  · intro h
    simp [spawn, h]
  · intro hv hdup
    simp [spawn, hv, hdup]

/-- Witness for C2 at `"bad id!"` (invalid) and at a duplicate `"abc"`. -/
theorem c2_spawn_failfast_witness :
    isValidSessionId "bad id!" = false ∧
    spawn emptyState "bad id!" "/tmp" [] 0 1 =
      (emptyState, Except.error PtyError.validationError) ∧
    spawn demoState "abc" "/tmp" [] 3 9 =
      (demoState, Except.error (PtyError.duplicateSession "abc")) :=
  ⟨by decide,
   (c2_spawn_failfast emptyState "bad id!" "/tmp" [] 0 1).1 (by decide),
   (c2_spawn_failfast demoState "abc" "/tmp" [] 3 9).2 (by decide) (by decide)⟩

/-- C3: starting from a buffer within bounds, any burst of chunks leaves
the output buffer at no more than `MAX_BUFFER_SIZE` entries; pushing any
sequence of chunks from an empty buffer leaves exactly the most recent
`MAX_BUFFER_SIZE` processed chunks in emission order (for chunks within
the line-length bound, the chunks themselves), so 15,000 pushed chunks
leave the most recent 10,000. -/
theorem c3_buffer_bound (init chunks : List String) (hinit : init.length ≤ MAX_BUFFER_SIZE) :
    (pushAll init chunks).length ≤ MAX_BUFFER_SIZE ∧
    pushAll [] chunks = (chunks.map processChunk).drop (chunks.length - MAX_BUFFER_SIZE) ∧
    ((∀ c ∈ chunks, c.length ≤ MAX_LINE_LENGTH) →
      pushAll [] chunks = chunks.drop (chunks.length - MAX_BUFFER_SIZE)) := by
  have hnil : ([] : List String).length ≤ MAX_BUFFER_SIZE := by simp
  have hbase := pushAll_formula chunks [] hnil
  refine ⟨?_, ?_, ?_⟩
  · rw [pushAll_formula chunks init hinit]
    simp only [List.length_drop, List.length_append, List.length_map]
    omega
  · simpa using hbase
  · intro hshort
    have hmap : chunks.map processChunk = chunks := by
      rw [List.map_congr_left (fun c hc => processChunk_short c (hshort c hc))]
      exact List.map_id chunks
    have h2 : pushAll [] chunks =
        (chunks.map processChunk).drop (chunks.length - MAX_BUFFER_SIZE) := by
      simpa using hbase
    rw [h2, hmap]

/-- Witness for C3 on a short concrete burst. -/
theorem c3_buffer_bound_witness :
    (["x"] : List String).length ≤ MAX_BUFFER_SIZE ∧
    (pushAll ["x"] ["a", "b"]).length ≤ MAX_BUFFER_SIZE ∧
    pushAll [] ["a", "b"] =
      ((["a", "b"] : List String).map processChunk).drop (2 - MAX_BUFFER_SIZE) ∧
    pushAll [] ["a", "b"] = (["a", "b"] : List String).drop (2 - MAX_BUFFER_SIZE) :=
  have h := c3_buffer_bound ["x"] ["a", "b"] (by decide)
  ⟨by decide, h.1, h.2.1, h.2.2 (by decide)⟩

/-- C4: a chunk longer than `MAX_LINE_LENGTH` is forwarded to listeners
as exactly its first `MAX_LINE_LENGTH` characters followed by the fixed
marker, and the buffer gains no entry other than that truncated chunk —
the untruncated original is neither stored nor forwarded. -/
theorem c4_truncation (s : PTYSession) (data : String) (h : MAX_LINE_LENGTH < data.length) :
    (onData s data).2 = jsSubstring data MAX_LINE_LENGTH ++ TRUNCATION_MARKER ∧
    ∀ x ∈ (onData s data).1.outputBuffer,
      x ∈ s.outputBuffer ∨ x = jsSubstring data MAX_LINE_LENGTH ++ TRUNCATION_MARKER := by
  have hp : processChunk data = jsSubstring data MAX_LINE_LENGTH ++ TRUNCATION_MARKER := by
    simp only [processChunk]
    rw [if_pos h]
  constructor
  · simp [onData, hp]
  · intro x hx
    simp only [onData] at hx
    have hx2 : x ∈ s.outputBuffer ++ [processChunk data] := by
      simp only [pushChunk] at hx
      split at hx
      · exact List.mem_of_mem_drop hx
      · exact hx
    rcases List.mem_append.mp hx2 with h1 | h1
    · exact Or.inl h1
    · right
      rw [← hp]
      simpa using h1

/-- Witness for C4 at a 10,001-character chunk. -/
theorem c4_truncation_witness :
    MAX_LINE_LENGTH < longChunk.length ∧
    ((onData demoSession longChunk).2 =
      jsSubstring longChunk MAX_LINE_LENGTH ++ TRUNCATION_MARKER ∧
    ∀ x ∈ (onData demoSession longChunk).1.outputBuffer,
      x ∈ demoSession.outputBuffer ∨
        x = jsSubstring longChunk MAX_LINE_LENGTH ++ TRUNCATION_MARKER) :=
  have hlen : MAX_LINE_LENGTH < longChunk.length := by
    have h1 : longChunk.length = MAX_LINE_LENGTH + 1 := by
      rw [show longChunk.length = (List.replicate (MAX_LINE_LENGTH + 1) 'a').length from rfl]
      rw [List.length_replicate]
    omega
  ⟨hlen, c4_truncation demoSession longChunk hlen⟩

/-- C5: a change notification whose reported size is strictly smaller
than the saved size is treated as truncation/rotation: the saved state is
discarded and processing stops with no line slicing and no events (the
total embedding returns normally, surfacing no error). -/
theorem c5_truncation_reset (hashFn : String → String) (parseLine : String → Option Json)
    (last : FileState) (content : String) (size mtime : Nat) (h : size < last.size) :
    processTranscriptUpdate hashFn parseLine (some last) content size mtime =
      { newState := none, newLines := [], events := [] } := by
  simp [processTranscriptUpdate, h]

/-- Witness for C5 with saved size 10 and reported size 3. -/
theorem c5_truncation_reset_witness :
    (3 : Nat) < 10 ∧
    processTranscriptUpdate (fun s => s) demoParse
        (some { size := 10, hash := "h", mtime := 0 }) "x" 3 1 =
      { newState := none, newLines := [], events := [] } :=
  ⟨by decide,
   c5_truncation_reset (fun s => s) demoParse { size := 10, hash := "h", mtime := 0 }
     "x" 3 1 (by decide)⟩

/-- C9: `getOutputBuffer` on an absent session returns the empty list
with no error, while `write`, `resize` and `addListener` fail with
`UnknownSessionError`; on a live session it returns a snapshot equal to
the session's buffer. -/
theorem c9_getOutputBuffer (st : PTYState) (sessionId data : String)
    (listener cols rows : Nat) :
    (st.sessions.lookup sessionId = none →
      getOutputBuffer st sessionId = [] ∧
      write st sessionId data = Except.error (PtyError.unknownSession sessionId) ∧
      resize st sessionId cols rows = Except.error (PtyError.unknownSession sessionId) ∧
      addListener st sessionId listener =
        Except.error (PtyError.unknownSession sessionId)) ∧
    (∀ session, st.sessions.lookup sessionId = some session →
      getOutputBuffer st sessionId = session.outputBuffer) := by
  constructor
  · intro h
    refine ⟨?_, ?_, ?_, ?_⟩ <;> simp [getOutputBuffer, write, resize, addListener, h]
  · intro session h
    simp [getOutputBuffer, h]

/-- Witness for C9 on the one-session demo registry. -/
theorem c9_getOutputBuffer_witness :
    demoState.sessions.lookup "zzz" = none ∧
    getOutputBuffer demoState "zzz" = [] ∧
    write demoState "zzz" "hi" = Except.error (PtyError.unknownSession "zzz") ∧
    getOutputBuffer demoState "abc" = demoSession.outputBuffer :=
  have h1 := (c9_getOutputBuffer demoState "zzz" "hi" 5 80 30).1 (by decide)
  have h2 := (c9_getOutputBuffer demoState "abc" "hi" 5 80 30).2 demoSession (by decide)
  ⟨by decide, h1.1, h1.2.1, h2⟩

/-- C1 counterexample: with a single open shell labelled `bash` that is
the user's focused terminal and no registrations, `sendRawSequence` for
session `sess1` writes to that shell, although it is neither registered
for `sess1`, nor labelled with it, nor a focused terminal on the node /
claude allow-list — refuting the claimed invariant as stated. -/
theorem c1_fallback_counterexample :
    sentTerminal (sendRawSequence c1World (some "sess1") "y") =
      some { id := 1, name := "bash" } ∧
    specAllowedWriteTarget c1World "sess1" { id := 1, name := "bash" } = false := by
  decide

/-- C1 (amended): a successful send only ever writes to a terminal that
is registered for the session, or whose label contains the session id
case-insensitively, or whose label contains `claude`, or that is the
user's currently focused terminal (the deliberate final fallback, which
then registers it); never to a non-focused terminal selected only by
elimination. -/
theorem c1_write_target (w : World) (sid seq : String) (w2 : World) (t : Terminal)
    (payload : String)
    (h : sendRawSequence w (some sid) seq = Except.ok (w2, t, payload)) :
    w.sessionMap.lookup sid = some t.id ∨
    strContains (lowerStr t.name) (lowerStr sid) = true ∨
    strContains (lowerStr t.name) "claude" = true ∨
    w.active = some t := by
  unfold sendRawSequence at h
  simp only at h
  split at h
  · rename_i t2 hfind
    simp only [Except.ok.injEq, Prod.mk.injEq] at h
    obtain ⟨-, ht, -⟩ := h
    rw [ht] at hfind
    exact findClaudeTerminal_sound w sid t hfind
  · rename_i hfind
    split at h
    · rename_i a ha
      simp only [Except.ok.injEq, Prod.mk.injEq] at h
      obtain ⟨-, ht, -⟩ := h
      rw [ht] at ha
      rw [findClaudeTerminal_active w (some sid)] at ha
      exact Or.inr (Or.inr (Or.inr ha))
    · simp at h

/-- Witness for C1 (amended) at a concrete successful send. -/
theorem c1_write_target_witness :
    sendRawSequence c1World (some "sess1") "y" =
      Except.ok ({ terminals := [{ id := 1, name := "bash" }],
                   active := some { id := 1, name := "bash" },
                   sessionMap := [("sess1", 1)] },
                 { id := 1, name := "bash" }, "y") ∧
    (c1World.sessionMap.lookup "sess1" =
        some (Terminal.id { id := 1, name := "bash" }) ∨
     strContains (lowerStr (Terminal.name { id := 1, name := "bash" }))
        (lowerStr "sess1") = true ∨
     strContains (lowerStr (Terminal.name { id := 1, name := "bash" })) "claude" = true ∨
     c1World.active = some { id := 1, name := "bash" }) :=
  ⟨by decide,
   c1_write_target c1World "sess1" "y"
     { terminals := [{ id := 1, name := "bash" }],
       active := some { id := 1, name := "bash" },
       sessionMap := [("sess1", 1)] }
     { id := 1, name := "bash" } "y" (by decide)⟩

set_option maxRecDepth 100000 in
/-- C8 counterexample: with one open shell labelled `bash`, no focused
terminal and no match, the send fails, but the thrown diagnostic does not
carry the open terminal labels (the label `bash` does not occur in it),
refuting the claim as stated. -/
theorem c8_no_labels_counterexample :
    sendErrorMessage (sendRawSequence c8World (some "sess-42") "y") =
      some (noTerminalMessage (some "sess-42")) ∧
    strContains (noTerminalMessage (some "sess-42")) "bash" = false := by
  decide

/-- C8 (amended): when the fallback chain exhausts all candidates (no
match and no focused terminal), the send fails with the fixed diagnostic
that names the target session (or `this session`) and the remediation
steps — not the list of currently open terminal labels. -/
theorem c8_exhausted_error (w : World) (target : Option String) (seq : String)
    (hfind : (findClaudeTerminal w target).1 = none) (hactive : w.active = none) :
    sendRawSequence w target seq = Except.error (noTerminalMessage target) := by
  unfold sendRawSequence
  simp only
  rw [hfind]
  rw [findClaudeTerminal_active w target, hactive]

/-- Witness for C8 (amended) at the one-shell, nothing-focused world. -/
theorem c8_exhausted_error_witness :
    (findClaudeTerminal c8World (some "sess-42")).1 = none ∧
    c8World.active = none ∧
    sendRawSequence c8World (some "sess-42") "y" =
      Except.error (noTerminalMessage (some "sess-42")) :=
  ⟨by decide, rfl, c8_exhausted_error c8World (some "sess-42") "y" (by decide) rfl⟩

/-- C6: a notification whose content hash equals the saved hash (and
which is not a truncation) performs no classification and leaves the
saved state untouched; hence two consecutive notifications with
byte-identical content, starting unwatched, classify that content exactly
once — the second call slices no lines and emits no events. -/
theorem c6_hash_skip (hashFn : String → String) (parseLine : String → Option Json)
    (content : String) (size mtime mtime2 : Nat) :
    (∀ last : FileState, last.hash = hashFn content → ¬ size < last.size →
      processTranscriptUpdate hashFn parseLine (some last) content size mtime =
        { newState := some last, newLines := [], events := [] }) ∧
    ((processTranscriptUpdate hashFn parseLine none content size mtime).newLines =
      linesOf content ∧
     processTranscriptUpdate hashFn parseLine
        (processTranscriptUpdate hashFn parseLine none content size mtime).newState
        content size mtime2 =
      { newState :=
          (processTranscriptUpdate hashFn parseLine none content size mtime).newState,
        newLines := [], events := [] }) := by
  have hskip : ∀ last : FileState, last.hash = hashFn content → ¬ size < last.size →
      processTranscriptUpdate hashFn parseLine (some last) content size mtime2 =
        { newState := some last, newLines := [], events := [] } := by
    intro last hh hs
    have hbeq : (hashFn content == last.hash) = true := by
      rw [hh]
      exact beq_self_eq_true _
    simp [processTranscriptUpdate, hs, hbeq]
  have hfresh : processTranscriptUpdate hashFn parseLine none content size mtime =
      { newState := some { size := size, hash := hashFn content, mtime := mtime },
        newLines := linesOf content,
        events := (((linesOf content).filterMap parseLine).map
          analyzeTranscriptEntry).flatten } := by
    simp [processTranscriptUpdate]
  refine ⟨?_, ?_, ?_⟩
  · intro last hh hs
    have hbeq : (hashFn content == last.hash) = true := by
      rw [hh]
      exact beq_self_eq_true _
    simp [processTranscriptUpdate, hs, hbeq]
  · rw [hfresh]
  · rw [hfresh]
    exact hskip { size := size, hash := hashFn content, mtime := mtime } rfl (by simp)

/-- Witness for C6 at a concrete state with matching hash. -/
theorem c6_hash_skip_witness :
    ((fun s => s) "x" : String) = FileState.hash { size := 1, hash := "x", mtime := 0 } ∧
    ¬ (1 : Nat) < FileState.size { size := 1, hash := "x", mtime := 0 } ∧
    processTranscriptUpdate (fun s => s) demoParse
        (some { size := 1, hash := "x", mtime := 0 }) "x" 1 0 =
      { newState := some { size := 1, hash := "x", mtime := 0 },
        newLines := [], events := [] } :=
  ⟨rfl, by simp,
   (c6_hash_skip (fun s => s) demoParse "x" 1 0 0).1
     { size := 1, hash := "x", mtime := 0 } rfl (by simp)⟩

/-- C7: when the two new transcript lines are the Edit tool call on
`/a/b.ts` followed by the Bash `npm test` call, the slicing hands exactly
those two lines to classification, which emits exactly two events, in
order: file-modified with basename `b.ts`, then test-run. -/
theorem c7_scenario :
    (processTranscriptUpdate (fun s => s) demoParse none demoContent 158 0).newLines =
      [lineEditText, lineBashText] ∧
    (processTranscriptUpdate (fun s => s) demoParse none demoContent 158 0).events =
      [TranscriptEvent.fileModified "b.ts",
       TranscriptEvent.testRun "Test execution detected"] := by
  decide

/-- C10: a `tool_use` entry naming Edit or Write whose input object lacks
a `file_path` field still classifies as a file-modified event, with the
file-name metadata equal to the literal `unknown`. -/
theorem c10_missing_file_path (toolName : String) (inputFields : List (String × Json))
    (hname : toolName = "Edit" ∨ toolName = "Write")
    (hpath : jsLookup inputFields "file_path" = none) :
    analyzeTranscriptEntry (Json.obj [("type", Json.str "tool_use"),
        ("name", Json.str toolName), ("input", Json.obj inputFields)]) =
      [TranscriptEvent.fileModified "unknown"] := by
  have hfn : fileNameOf inputFields = "unknown" := by
    unfold fileNameOf jsLookup
    unfold jsLookup at hpath
    rw [hpath]
  rcases hname with h | h <;> subst h <;>
    simp [analyzeTranscriptEntry, fieldsOf, jsLookup, jsStrEq, List.lookup, hfn]

/-- Witness for C10 at an Edit entry with an empty input object. -/
theorem c10_missing_file_path_witness :
    jsLookup [] "file_path" = none ∧
    analyzeTranscriptEntry (Json.obj [("type", Json.str "tool_use"),
        ("name", Json.str "Edit"), ("input", Json.obj [])]) =
      [TranscriptEvent.fileModified "unknown"] :=
  ⟨rfl, c10_missing_file_path "Edit" [] (Or.inl rfl) rfl⟩

end ClaudeArtifacts
